import Mathlib

/-!
Shallow embedding of the single-page research client (src/src/App.jsx).

The component holds four pieces of local state (prompt text, response,
loading flag, error message).  `fetchSummary` trims the query, validates,
issues one POST and maps the outcome onto that state; the render function
shows some subset of four display cards depending on the state.  The
network is modelled as an oracle choice of outcome (success body,
JSON-parse failure, HTTP error with optional parsed body, transport
error), and the async function is split into its synchronous prefix
(`fetchStart`, up to the point the request is issued) and the resolution
(`fetchFinish`, the try/catch/finally around the response).
-/

namespace AsdpWeb

/-- A JSON field as the client sees it: absent from the object, present
with value `null`, or present with a string value.  (The backend contract
only ever carries strings in these fields.) -/
inductive JField where
  | absent
  | null
  | str (s : String)
deriving DecidableEq, Repr

/-- JavaScript `f ?? d` (nullish coalescing) on a JSON field: the default
fires exactly when the field is absent (`undefined`) or `null`. -/
def JField.coalesce (f : JField) (d : String) : String :=
  match f with
  | .str s => s
  | _ => d

/-- JavaScript `f || d` on a JSON field: the default fires when the field
is falsy, i.e. absent, `null`, or the empty string. -/
def JField.orFalsy (f : JField) (d : String) : String :=
  match f with
  | .str s => if s = "" then d else s
  | _ => d

/-- Whether a JSON field is truthy in JavaScript: present with a
non-empty string value. -/
def JField.truthy : JField → Bool
  | .str s => s != ""
  | _ => false

/-- Body of a 2xx response: `{ first_answer?, second_answer? }`. -/
structure SuccessBody where
  first_answer : JField
  second_answer : JField
deriving DecidableEq, Repr

/-- Body of a non-2xx response: `{ detail?, error? }`. -/
structure ErrorBody where
  detail : JField
  error : JField
deriving DecidableEq, Repr

/-- The displayed result pair (the `response` state of the component). -/
structure RespData where
  title : String
  summary : String
deriving DecidableEq, Repr

/-- The component's local state: `prompt`, `response`, `isLoading`,
`error` (empty string means no error, matching JS truthiness of the
rendering guards). -/
structure AppState where
  prompt : String
  response : Option RespData
  isLoading : Bool
  error : String
deriving DecidableEq, Repr

/-- `useState` initial values. -/
def initialState : AppState :=
  { prompt := "", response := none, isLoading := false, error := "" }

/-- Outcome of the issued network request, chosen by the environment:
a 2xx response whose body parses, a 2xx response whose `res.json()`
throws, a non-2xx response (with its error body if it parses, `none` if
not), or a transport failure (`fetch` itself throws).  Thrown JS errors
carry an optional message; `none` models a throw without a `message`
property. -/
inductive FetchOutcome where
  | success (body : SuccessBody)
  | successBadJson (msg : Option String)
  | httpError (body : Option ErrorBody)
  | networkError (msg : Option String)
deriving DecidableEq, Repr

/-- JavaScript `query.trim()`: strip leading and trailing whitespace. -/
def jsTrim (s : String) : String :=
  ⟨((s.data.dropWhile Char.isWhitespace).reverse.dropWhile Char.isWhitespace).reverse⟩

def validationMessage : String := "Enter a research topic to explore."

def fallbackMessage : String := "Something went wrong. Please try again."

def unreachableMessage : String := "Unable to reach the research service."

def noTitleDefault : String := "No title returned"

def noSummaryDefault : String := "No summary available for this topic yet."

/-- JavaScript `err.message || d` in the catch block: the fallback fires
when the thrown value has no message or an empty one. -/
def messageOr (msg : Option String) (d : String) : String :=
  match msg with
  | some m => if m = "" then d else m
  | none => d

/-- The non-2xx branch: `errorBody.detail || errorBody.error ||
fallbackMessage`, with the fallback kept when the error body did not
parse. -/
def errorDetail (body : Option ErrorBody) : String :=
  match body with
  | some b => b.detail.orFalsy (b.error.orFalsy fallbackMessage)
  | none => fallbackMessage

/-- The try-block of `fetchSummary` from the resolution of `fetch`
onwards; `Except` carries the optional message of a thrown JS error. -/
def tryBlock (outcome : FetchOutcome) (s : AppState) : Except (Option String) AppState :=
  match outcome with
  | .networkError msg => .error msg
  | .successBadJson msg => .error msg
  | .httpError body => .error (some (errorDetail body))
  | .success body =>
      .ok { s with response := some (RespData.mk
        (body.first_answer.coalesce noTitleDefault)
        (body.second_answer.coalesce noSummaryDefault)) }

/-- Synchronous prefix of `fetchSummary(query)`: trim, validate (setting
the validation error and returning early on an empty trim), otherwise
set `isLoading`, clear `error` and issue the request.  The second
component records the issued network request: `none` when no request is
made, `some p` when a POST with body `{"prompt": p}` is issued (the code
sends the trimmed text). -/
def fetchStart (query : String) (s : AppState) : AppState × Option String :=
  if jsTrim query = "" then
    ({ s with error := validationMessage }, none)
  else
    ({ s with isLoading := true, error := "" }, some (jsTrim query))

/-- Resolution of an issued request: the catch block maps any thrown
condition to `response := none` and a displayed message, and the finally
block clears `isLoading` on every path. -/
def fetchFinish (outcome : FetchOutcome) (s : AppState) : AppState :=
  let afterTry := match tryBlock outcome s with
    | .ok t => t
    | .error msg => { s with response := none, error := messageOr msg unreachableMessage }
  { afterTry with isLoading := false }

/-- `fetchSummary(query)` run to completion with the given network
outcome; the second component records the issued request as in
`fetchStart`. -/
def fetchSummary (query : String) (outcome : FetchOutcome) (s : AppState) :
    AppState × Option String :=
  let started := fetchStart query s
  match started.2 with
  | some _ => (fetchFinish outcome started.1, started.2)
  | none => started

/-- The controlled input's `onChange`. -/
def setPrompt (t : String) (s : AppState) : AppState := { s with prompt := t }

/-- `handleSubmit`: submit the form with the current prompt state. -/
def handleSubmit (outcome : FetchOutcome) (s : AppState) : AppState × Option String :=
  fetchSummary s.prompt outcome s

/-- `handleSuggestion(text)`: set the prompt to the suggestion's text and
submit that text. -/
def handleSuggestion (text : String) (outcome : FetchOutcome) (s : AppState) :
    AppState × Option String :=
  fetchSummary text outcome (setPrompt text s)

/-- One of the four cards the results panel can render. -/
inductive Display where
  | errorCard (msg : String)
  | loadingCard
  | resultCard (title summary : String)
  | placeholder
deriving DecidableEq, Repr

/-- The results panel render: each card has its own independent guard,
in source order — `error && …`, `isLoading && …`,
`!isLoading && hasResult && response && …`,
`!isLoading && !hasResult && !error && …`. -/
def shownDisplays (s : AppState) : List Display :=
  (if s.error ≠ "" then [Display.errorCard s.error] else []) ++
  (if s.isLoading then [Display.loadingCard] else []) ++
  (match s.isLoading, s.response with
    | false, some r => [Display.resultCard r.title r.summary]
    | _, _ => []) ++
  (if s.isLoading = false ∧ s.response = none ∧ s.error = "" then
    [Display.placeholder] else [])

/-- Title of the rendered result card, when a response is held. -/
def displayedTitle (s : AppState) : Option String := s.response.map RespData.title

/-- Summary of the rendered result card, when a response is held. -/
def displayedSummary (s : AppState) : Option String := s.response.map RespData.summary

/-- UI states reachable from the initial render.  Typing, submitting and
clicking a suggestion are only possible while no request is loading (the
input and all buttons carry `disabled={isLoading}`); a pending request —
which exists exactly while `isLoading` — may resolve with any outcome. -/
inductive Reachable : AppState → Prop where
  | init : Reachable initialState
  | typePrompt (s : AppState) (t : String) :
      Reachable s → s.isLoading = false → Reachable (setPrompt t s)
  | submit (s : AppState) :
      Reachable s → s.isLoading = false → Reachable (fetchStart s.prompt s).1
  | suggest (s : AppState) (t : String) :
      Reachable s → s.isLoading = false → Reachable (fetchStart t (setPrompt t s)).1
  | resolve (s : AppState) (outcome : FetchOutcome) :
      Reachable s → s.isLoading = true → Reachable (fetchFinish outcome s)

/-! ### Helper lemmas -/

/-- The catch block's displayed message is never the empty string when
its fallback is not. -/
lemma messageOr_ne_empty (msg : Option String) (d : String) (hd : d ≠ "") :
    messageOr msg d ≠ "" := by
  cases msg with
  | none => exact hd
  | some m =>
      by_cases hm : m = ""
      · simp [messageOr, hm]
        exact hd
      · simp [messageOr, hm]

/-- A falsy field never wins a JavaScript or-chain. -/
lemma JField.orFalsy_of_truthy_eq_false (f : JField) (d : String)
    (h : f.truthy = false) : f.orFalsy d = d := by
  cases f with
  | absent => rfl
  | null => rfl
  | str s =>
      have hs : s = "" := by simpa [JField.truthy] using h
      simp [JField.orFalsy, hs]

/-- A truthy field wins the or-chain with its own value. -/
lemma JField.orFalsy_of_str (s d : String) (h : s ≠ "") :
    JField.orFalsy (JField.str s) d = s := by
  simp [JField.orFalsy, h]

/-- State invariant maintained by every UI event: while a request is
loading the error is cleared, and an error can coexist with a retained
response only when it is the local validation message. -/
def StateInv (s : AppState) : Prop :=
  (s.isLoading = true → s.error = "") ∧
  (s.error ≠ "" → s.response ≠ none → s.error = validationMessage)

lemma stateInv_reachable (s : AppState) (h : Reachable s) : StateInv s := by
  induction h with
  | init => exact ⟨fun h => rfl, fun h _ => absurd rfl h⟩
  | typePrompt s t hr hl ih => exact ih
  | submit s hr hl ih =>
      by_cases hq : jsTrim s.prompt = ""
      · refine ⟨fun hload => ?_, fun _ _ => ?_⟩
        · simp [fetchStart, hq] at hload
          exact absurd (hload.symm.trans hl).symm (by simp)
        · simp [fetchStart, hq]
      · exact ⟨fun _ => by simp [fetchStart, hq], fun he _ => by simp [fetchStart, hq] at he⟩
  | suggest s t hr hl ih =>
      by_cases hq : jsTrim t = ""
      · refine ⟨fun hload => ?_, fun _ _ => ?_⟩
        · simp [fetchStart, setPrompt, hq] at hload
          exact absurd (hload.symm.trans hl).symm (by simp)
        · simp [fetchStart, setPrompt, hq]
      · exact ⟨fun _ => by simp [fetchStart, setPrompt, hq],
          fun he _ => by simp [fetchStart, setPrompt, hq] at he⟩
  | resolve s outcome hr hl ih =>
      cases outcome with
      | success body =>
          refine ⟨fun h => absurd h (by simp [fetchFinish, tryBlock]), fun he _ => ?_⟩
          have herr : (fetchFinish (FetchOutcome.success body) s).error = s.error := by
            simp [fetchFinish, tryBlock]
          rw [herr] at he ⊢
          exact absurd (ih.1 hl) he
      | successBadJson msg =>
          refine ⟨fun h => absurd h (by simp [fetchFinish, tryBlock]), fun _ hresp => ?_⟩
          exact absurd (by simp [fetchFinish, tryBlock]) hresp
      | httpError body =>
          refine ⟨fun h => absurd h (by simp [fetchFinish, tryBlock]), fun _ hresp => ?_⟩
          exact absurd (by simp [fetchFinish, tryBlock]) hresp
      | networkError msg =>
          refine ⟨fun h => absurd h (by simp [fetchFinish, tryBlock]), fun _ hresp => ?_⟩
          exact absurd (by simp [fetchFinish, tryBlock]) hresp

/-! ### Claims -/

/-- C1: for every input text whose trim is empty, submit sets the error
state to exactly "Enter a research topic to explore.", leaves the rest of
the state untouched, and returns without issuing any network call. -/
theorem empty_submit_no_request (query : String) (outcome : FetchOutcome) (s : AppState)
    (h : jsTrim query = "") :
    fetchSummary query outcome s = ({ s with error := validationMessage }, none) := by
  simp [fetchSummary, fetchStart, h]

/-- C1, witness: a whitespace-only prompt at the initial state. -/
theorem empty_submit_no_request_witness :
    jsTrim "   " = "" ∧
    fetchSummary "   " (FetchOutcome.success (SuccessBody.mk JField.absent JField.absent))
        initialState = ({ initialState with error := validationMessage }, none) :=
  ⟨by decide, empty_submit_no_request "   " _ initialState (by decide)⟩

/-- C2, counterexample: submitting a fresh non-empty prompt while a
prior result is held issues the request with the prior result still
present in state — the result is not absent at the moment the request is
issued, contrary to the claim. -/
theorem submit_keeps_stale_result_at_issue :
    (fetchStart "new topic"
        (AppState.mk "new topic" (some (RespData.mk "T" "S")) false "")).2
      = some "new topic" ∧
    (fetchStart "new topic"
        (AppState.mk "new topic" (some (RespData.mk "T" "S")) false "")).1.response
      = some (RespData.mk "T" "S") := by
  decide

/-- C2 (amended): for every input text whose trim is non-empty, submit
clears any prior error and raises the loading flag before issuing the
POST; the prior result is retained in state at that moment (hidden while
loading — the panel shows only the loading card), and is only replaced
or cleared when the request completes. -/
theorem submit_clears_error_before_request (query : String) (s : AppState)
    (h : jsTrim query ≠ "") :
    (fetchStart query s).2 = some (jsTrim query) ∧
    (fetchStart query s).1.error = "" ∧
    (fetchStart query s).1.isLoading = true ∧
    (fetchStart query s).1.response = s.response ∧
    shownDisplays (fetchStart query s).1 = [Display.loadingCard] := by
  simp [fetchStart, h, shownDisplays]

/-- C2, witness: a concrete submission over a stale result and error. -/
theorem submit_clears_error_before_request_witness :
    (fetchStart "q" (AppState.mk "q" (some (RespData.mk "T" "S")) false "old")).1.error
      = "" :=
  (submit_clears_error_before_request "q" _ (by decide)).2.1

/-- C6: for every submission with a non-empty trimmed prompt and every
outcome of the request, the loading flag is false after the submission
terminates. -/
theorem loading_cleared_after_completion (query : String) (outcome : FetchOutcome)
    (s : AppState) (h : jsTrim query ≠ "") :
    (fetchSummary query outcome s).1.isLoading = false := by
  simp [fetchSummary, fetchStart, h, fetchFinish]

/-- C6, witness: a concrete completed request. -/
theorem loading_cleared_after_completion_witness :
    (fetchSummary "q" (FetchOutcome.networkError none) initialState).1.isLoading = false :=
  loading_cleared_after_completion "q" _ initialState (by decide)

/-- C8: clicking a suggestion sets the prompt input to the suggestion's
text and then performs a submission observably identical to manually
entering the same text and submitting the form — the resulting state and
the issued request (if any) coincide for every outcome. -/
theorem suggestion_equals_manual_submission (text : String) (outcome : FetchOutcome)
    (s : AppState) :
    handleSuggestion text outcome s = handleSubmit outcome (setPrompt text s) ∧
    (handleSuggestion text outcome s).1.prompt = text := by
  refine ⟨rfl, ?_⟩
  by_cases h : jsTrim text = ""
  · simp [handleSuggestion, fetchSummary, fetchStart, setPrompt, h]
  · cases outcome <;>
      simp [handleSuggestion, fetchSummary, fetchStart, setPrompt, h, fetchFinish, tryBlock]

/-- C4: for every 2xx response with a JSON body, the displayed title is
the body's first_answer field, or "No title returned" when that field is
missing; the displayed summary is the second_answer field, or the
default summary text when missing; and when both fields are present the
results panel renders exactly the result card with those two strings. -/
theorem success_render_fields (query : String) (s : AppState) (body : SuccessBody)
    (h : jsTrim query ≠ "") :
    (body.first_answer = JField.absent →
      displayedTitle (fetchSummary query (FetchOutcome.success body) s).1
        = some noTitleDefault) ∧
    (∀ t, body.first_answer = JField.str t →
      displayedTitle (fetchSummary query (FetchOutcome.success body) s).1 = some t) ∧
    (body.second_answer = JField.absent →
      displayedSummary (fetchSummary query (FetchOutcome.success body) s).1
        = some noSummaryDefault) ∧
    (∀ u, body.second_answer = JField.str u →
      displayedSummary (fetchSummary query (FetchOutcome.success body) s).1 = some u) ∧
    (∀ t u, body.first_answer = JField.str t → body.second_answer = JField.str u →
      shownDisplays (fetchSummary query (FetchOutcome.success body) s).1
        = [Display.resultCard t u]) := by
  refine ⟨fun h1 => ?_, fun t h1 => ?_, fun h2 => ?_, fun u h2 => ?_, fun t u h1 h2 => ?_⟩
  · simp [fetchSummary, fetchStart, h, fetchFinish, tryBlock, displayedTitle, h1,
      JField.coalesce]
  · simp [fetchSummary, fetchStart, h, fetchFinish, tryBlock, displayedTitle, h1,
      JField.coalesce]
  · simp [fetchSummary, fetchStart, h, fetchFinish, tryBlock, displayedSummary, h2,
      JField.coalesce]
  · simp [fetchSummary, fetchStart, h, fetchFinish, tryBlock, displayedSummary, h2,
      JField.coalesce]
  · simp [fetchSummary, fetchStart, h, fetchFinish, tryBlock, shownDisplays, h1, h2,
      JField.coalesce]

/-- C4, witness: a body with both fields present renders exactly them. -/
theorem success_render_fields_witness :
    shownDisplays (fetchSummary "q"
        (FetchOutcome.success (SuccessBody.mk (JField.str "A") (JField.str "B")))
        initialState).1 = [Display.resultCard "A" "B"] :=
  (success_render_fields "q" initialState
    (SuccessBody.mk (JField.str "A") (JField.str "B")) (by decide)).2.2.2.2 "A" "B" rfl rfl

/-- C9: the success defaults are substituted only for a null or absent
field; a field present with the empty string renders as the empty
string, not as the default text. -/
theorem empty_string_fields_not_defaulted (query : String) (s : AppState)
    (body : SuccessBody) (h : jsTrim query ≠ "") :
    (body.first_answer = JField.str "" →
      displayedTitle (fetchSummary query (FetchOutcome.success body) s).1 = some "") ∧
    (body.first_answer = JField.null →
      displayedTitle (fetchSummary query (FetchOutcome.success body) s).1
        = some noTitleDefault) ∧
    (body.second_answer = JField.str "" →
      displayedSummary (fetchSummary query (FetchOutcome.success body) s).1 = some "") ∧
    (body.second_answer = JField.null →
      displayedSummary (fetchSummary query (FetchOutcome.success body) s).1
        = some noSummaryDefault) := by
  refine ⟨fun h1 => ?_, fun h1 => ?_, fun h2 => ?_, fun h2 => ?_⟩
  · simp [fetchSummary, fetchStart, h, fetchFinish, tryBlock, displayedTitle, h1,
      JField.coalesce]
  · simp [fetchSummary, fetchStart, h, fetchFinish, tryBlock, displayedTitle, h1,
      JField.coalesce]
  · simp [fetchSummary, fetchStart, h, fetchFinish, tryBlock, displayedSummary, h2,
      JField.coalesce]
  · simp [fetchSummary, fetchStart, h, fetchFinish, tryBlock, displayedSummary, h2,
      JField.coalesce]

/-- C9, witness: an empty-string first_answer is rendered verbatim. -/
theorem empty_string_fields_not_defaulted_witness :
    displayedTitle (fetchSummary "q"
        (FetchOutcome.success (SuccessBody.mk (JField.str "") JField.absent))
        initialState).1 = some "" :=
  (empty_string_fields_not_defaulted "q" initialState
    (SuccessBody.mk (JField.str "") JField.absent) (by decide)).1 rfl

/-- C5, counterexample: a non-2xx body whose detail field is present but
empty does not surface that detail — the code skips it (JavaScript
or-chain) and surfaces the error field instead, so the message is "Y",
not the present detail value "". -/
theorem empty_detail_skipped :
    (fetchSummary "q"
        (FetchOutcome.httpError (some (ErrorBody.mk (JField.str "") (JField.str "Y"))))
        initialState).1.error = "Y" ∧
    ("Y" : String) ≠ "" := by
  decide

/-- C5 (amended): for every non-2xx response, the resulting error
message is the body's detail field if present with a non-empty string
value, otherwise its error field if present with a non-empty string
value, otherwise the fixed fallback "Something went wrong. Please try
again."; a present-but-empty (or null) field is skipped exactly like an
absent one, and an unparsable body also surfaces the fallback. -/
theorem http_error_message_chain (query : String) (s : AppState)
    (h : jsTrim query ≠ "") :
    (∀ b d, b.detail = JField.str d → d ≠ "" →
      (fetchSummary query (FetchOutcome.httpError (some b)) s).1.error = d) ∧
    (∀ b e, b.detail.truthy = false → b.error = JField.str e → e ≠ "" →
      (fetchSummary query (FetchOutcome.httpError (some b)) s).1.error = e) ∧
    (∀ b, b.detail.truthy = false → b.error.truthy = false →
      (fetchSummary query (FetchOutcome.httpError (some b)) s).1.error
        = fallbackMessage) ∧
    (fetchSummary query (FetchOutcome.httpError none) s).1.error = fallbackMessage := by
  refine ⟨fun b d hd hne => ?_, fun b e hdf he hne => ?_, fun b hdf hef => ?_, ?_⟩
  · simp [fetchSummary, fetchStart, h, fetchFinish, tryBlock, errorDetail, hd,
      JField.orFalsy_of_str d _ hne, messageOr, hne]
  · simp [fetchSummary, fetchStart, h, fetchFinish, tryBlock, errorDetail,
      JField.orFalsy_of_truthy_eq_false _ _ hdf, he,
      JField.orFalsy_of_str e _ hne, messageOr, hne]
  · simp [fetchSummary, fetchStart, h, fetchFinish, tryBlock, errorDetail,
      JField.orFalsy_of_truthy_eq_false _ _ hdf,
      JField.orFalsy_of_truthy_eq_false _ _ hef, messageOr, fallbackMessage]
  · simp [fetchSummary, fetchStart, h, fetchFinish, tryBlock, errorDetail,
      messageOr, fallbackMessage]

/-- C5, witness: a body with detail "X" surfaces exactly "X". -/
theorem http_error_message_chain_witness :
    (fetchSummary "q"
        (FetchOutcome.httpError (some (ErrorBody.mk (JField.str "X") JField.absent)))
        initialState).1.error = "X" :=
  (http_error_message_chain "q" initialState (by decide)).1
    (ErrorBody.mk (JField.str "X") JField.absent) "X" rfl (by decide)

/-- C7: for every failure other than an HTTP non-2xx status (transport
failure of the fetch itself, or a throw while reading the success body's
JSON), the error state is set to the failure's message, or to the
fallback "Unable to reach the research service." when the failure
carries no message (no message property, or an empty one — a JS Error
constructed without an argument has an empty message). -/
theorem transport_failure_message (query : String) (s : AppState)
    (h : jsTrim query ≠ "") :
    (∀ m, m ≠ "" →
      (fetchSummary query (FetchOutcome.networkError (some m)) s).1.error = m ∧
      (fetchSummary query (FetchOutcome.successBadJson (some m)) s).1.error = m) ∧
    (fetchSummary query (FetchOutcome.networkError none) s).1.error
      = unreachableMessage ∧
    (fetchSummary query (FetchOutcome.networkError (some "")) s).1.error
      = unreachableMessage ∧
    (fetchSummary query (FetchOutcome.successBadJson none) s).1.error
      = unreachableMessage ∧
    (fetchSummary query (FetchOutcome.successBadJson (some "")) s).1.error
      = unreachableMessage := by
  refine ⟨fun m hm => ⟨?_, ?_⟩, ?_, ?_, ?_, ?_⟩
  · simp [fetchSummary, fetchStart, h, fetchFinish, tryBlock, messageOr, hm]
  · simp [fetchSummary, fetchStart, h, fetchFinish, tryBlock, messageOr, hm]
  · simp [fetchSummary, fetchStart, h, fetchFinish, tryBlock, messageOr]
  · simp [fetchSummary, fetchStart, h, fetchFinish, tryBlock, messageOr]
  · simp [fetchSummary, fetchStart, h, fetchFinish, tryBlock, messageOr]
  · simp [fetchSummary, fetchStart, h, fetchFinish, tryBlock, messageOr]

/-- C7, witness: a transport failure with message "boom" surfaces it. -/
theorem transport_failure_message_witness :
    (fetchSummary "q" (FetchOutcome.networkError (some "boom")) initialState).1.error
      = "boom" :=
  ((transport_failure_message "q" initialState (by decide)).1 "boom" (by decide)).1

/-- C10: for every dispatched request that ends in failure (non-2xx
status or any thrown error), the catch block clears the result in the
same step that sets the error message: afterwards the result state is
null, the error is non-empty, and no result card is rendered. -/
theorem failure_clears_result (query : String) (outcome : FetchOutcome) (s : AppState)
    (h : jsTrim query ≠ "") (hf : ∀ b, outcome ≠ FetchOutcome.success b) :
    (fetchSummary query outcome s).1.response = none ∧
    (fetchSummary query outcome s).1.error ≠ "" ∧
    (∀ t u, Display.resultCard t u ∉ shownDisplays (fetchSummary query outcome s).1) := by
  cases outcome with
  | success body => exact absurd rfl (hf body)
  | successBadJson msg =>
      refine ⟨by simp [fetchSummary, fetchStart, h, fetchFinish, tryBlock], ?_, ?_⟩
      · simpa [fetchSummary, fetchStart, h, fetchFinish, tryBlock] using
          messageOr_ne_empty msg unreachableMessage (by decide)
      · intro t u
        have hne := messageOr_ne_empty msg unreachableMessage (by decide)
        simp [fetchSummary, fetchStart, h, fetchFinish, tryBlock, shownDisplays, hne]
  | httpError body =>
      refine ⟨by simp [fetchSummary, fetchStart, h, fetchFinish, tryBlock], ?_, ?_⟩
      · simpa [fetchSummary, fetchStart, h, fetchFinish, tryBlock] using
          messageOr_ne_empty (some (errorDetail body)) unreachableMessage (by decide)
      · intro t u
        have hne := messageOr_ne_empty (some (errorDetail body)) unreachableMessage
          (by decide)
        simp [fetchSummary, fetchStart, h, fetchFinish, tryBlock, shownDisplays, hne]
  | networkError msg =>
      refine ⟨by simp [fetchSummary, fetchStart, h, fetchFinish, tryBlock], ?_, ?_⟩
      · simpa [fetchSummary, fetchStart, h, fetchFinish, tryBlock] using
          messageOr_ne_empty msg unreachableMessage (by decide)
      · intro t u
        have hne := messageOr_ne_empty msg unreachableMessage (by decide)
        simp [fetchSummary, fetchStart, h, fetchFinish, tryBlock, shownDisplays, hne]

/-- C10, witness: a failed request with an unparsable error body. -/
theorem failure_clears_result_witness :
    (fetchSummary "q" (FetchOutcome.httpError none) initialState).1.response = none :=
  (failure_clears_result "q" (FetchOutcome.httpError none) initialState (by decide)
    (fun b hb => FetchOutcome.noConfusion hb)).1

/-- C3, counterexample: the mutual-exclusion claim fails.  After a
successful request, clearing the input to whitespace and submitting sets
the validation error without clearing the retained result, and the panel
renders two cards at once (the error message and the stale result card).
The exhibited state is reached by: type "x", submit, resolve with a
success body, type " ", submit. -/
theorem two_cards_reachable :
    Reachable (AppState.mk " " (some (RespData.mk "T" "S")) false validationMessage) ∧
    (shownDisplays
        (AppState.mk " " (some (RespData.mk "T" "S")) false validationMessage)).length
      = 2 := by
  have h1 : Reachable (setPrompt "x" initialState) :=
    Reachable.typePrompt _ _ Reachable.init rfl
  have e1 : (fetchStart (setPrompt "x" initialState).prompt (setPrompt "x" initialState)).1
      = AppState.mk "x" none true "" := by decide
  have h2 : Reachable (AppState.mk "x" none true "") :=
    e1 ▸ Reachable.submit _ h1 rfl
  have e2 : fetchFinish
        (FetchOutcome.success (SuccessBody.mk (JField.str "T") (JField.str "S")))
        (AppState.mk "x" none true "")
      = AppState.mk "x" (some (RespData.mk "T" "S")) false "" := by decide
  have h3 : Reachable (AppState.mk "x" (some (RespData.mk "T" "S")) false "") :=
    e2 ▸ Reachable.resolve _ _ h2 rfl
  have h4 : Reachable
      (setPrompt " " (AppState.mk "x" (some (RespData.mk "T" "S")) false "")) :=
    Reachable.typePrompt _ _ h3 rfl
  have e3 : (fetchStart
        (setPrompt " " (AppState.mk "x" (some (RespData.mk "T" "S")) false "")).prompt
        (setPrompt " " (AppState.mk "x" (some (RespData.mk "T" "S")) false ""))).1
      = AppState.mk " " (some (RespData.mk "T" "S")) false validationMessage := by decide
  exact ⟨e3 ▸ Reachable.submit _ h4 rfl, by decide⟩

/-- C3 (amended): in every reachable UI state the results panel shows at
least one card; it shows exactly one except in a single situation — an
empty-prompt (validation) submission made while a result card from an
earlier success is displayed, where the validation error message and the
retained result card are shown together (two cards).  The loading
indicator always appears alone, and after any request completion exactly
one card is shown. -/
theorem reachable_display_classification (s : AppState) (h : Reachable s) :
    (shownDisplays s).length = 1 ∨
    ((shownDisplays s).length = 2 ∧ s.error = validationMessage ∧
      s.isLoading = false ∧ s.response ≠ none) := by
  obtain ⟨h1, h2⟩ := stateInv_reachable s h
  cases hs : s.isLoading with
  | true =>
      have he : s.error = "" := h1 hs
      left
      simp [shownDisplays, hs, he]
  | false =>
      by_cases he : s.error = ""
      · cases hr : s.response with
        | none => left; simp [shownDisplays, hs, he, hr]
        | some r => left; simp [shownDisplays, hs, he, hr]
      · cases hr : s.response with
        | none => left; simp [shownDisplays, hs, he, hr]
        | some r =>
            right
            exact ⟨by simp [shownDisplays, hs, he, hr], h2 he (by simp [hr]), rfl,
              by simp [hr]⟩

/-- C3, witness: the initial state shows exactly one card. -/
theorem reachable_display_classification_witness :
    (shownDisplays initialState).length = 1 ∨
    ((shownDisplays initialState).length = 2 ∧
      initialState.error = validationMessage ∧
      initialState.isLoading = false ∧ initialState.response ≠ none) :=
  reachable_display_classification initialState Reachable.init

end AsdpWeb
